import Mathlib

/-! Verification development for the dfinity/icp-js-auth authentication client.

The development shallowly embeds the client's data model and the two state
machines described in the specification: the cross-window authorization
handshake (provider channel plus orchestrator) and the idle-detection
machinery (activity debouncing plus single-shot idle timer), together with
the response-unwrapping helper and the key-storage race discipline. -/

namespace ICPAuth

/-! Response unwrapping (src/unnamed/part_000). -/

/-- Error codes of the external signer library; the module uses the
NETWORK_ERROR constant for responses that carry neither a result nor an
error field. -/
inductive ErrorCode
  | NETWORK_ERROR
  | other (code : Int)
deriving DecidableEq

/-- Payload of a JSON-RPC error: a code and a human-readable message. -/
structure JsonError where
  code : ErrorCode
  message : String
deriving DecidableEq

/-- Error thrown by unwrapResponse, carrying the JSON-RPC error data. -/
structure SignerError where
  data : JsonError
deriving DecidableEq

/-- Shallow embedding of the JsonResponse union: a JSON object that may
carry an error field and may carry a result field; field presence is
modelled with Option. -/
structure JsonResponse (T : Type) where
  error : Option JsonError
  result : Option T
deriving DecidableEq

/-- Embedding of unwrapResponse from src/unnamed/part_000: an error field
throws a SignerError carrying it; otherwise a result field is returned
unchanged; otherwise a SignerError with code NETWORK_ERROR and message
"Invalid response" is thrown. Throwing is modelled with Except. -/
def unwrapResponse {T : Type} (response : JsonResponse T) : Except SignerError T :=
  match response.error with
  | some e => Except.error ⟨e⟩
  | none =>
    match response.result with
    | some r => Except.ok r
    | none => Except.error ⟨⟨ErrorCode.NETWORK_ERROR, "Invalid response"⟩⟩

/-! Login options and their two-layer merge. -/

/-- JSON-like values carried by the caller-supplied custom fields of a
login request: a scalar string, a number, or a one-level nested object. -/
inductive JsonVal
  | str (s : String)
  | num (n : Int)
  | obj (fields : List (String × String))
deriving DecidableEq

/-- Lookup of a key in an association list of custom values, returning the
value of the first entry with that key. -/
def lookupKey (k : String) : List (String × JsonVal) → Option JsonVal
  | [] => none
  | p :: rest => if p.1 = k then some p.2 else lookupKey k rest

/-- Modelled from the spec: the JavaScript object-spread merge of two
custom-value dictionaries, keeping the base entries (overridden key-by-key
by same-named per-call entries) followed by the per-call entries whose keys
are new. This is the shallow merge applied under the reserved customValues
key; auth-client.ts itself is not in the source snapshot. -/
def spreadMerge (base callv : List (String × JsonVal)) : List (String × JsonVal) :=
  base.map (fun p =>
    match lookupKey p.1 callv with
    | some v => (p.1, v)
    | none => p) ++
  callv.filter (fun p => (lookupKey p.1 base).isNone)

/-- Scalar-field override rule of an object spread: a per-call value wins
when present, otherwise the base value is kept. -/
def overrideOpt {α : Type} (base callv : Option α) : Option α :=
  match callv with
  | some v => some v
  | none => base

/-- Login options recognized by the client, each optional; customValues is
the reserved dictionary of arbitrary caller-supplied fields (absent is
modelled as the empty dictionary). -/
structure LoginOptions where
  identityProvider : Option String
  maxTimeToLive : Option Nat
  derivationOrigin : Option String
  windowOpenerFeatures : Option String
  customValues : List (String × JsonVal)
deriving DecidableEq

/-- Modelled from the spec: the merge of the client-level default login
options with the per-call login options — scalar fields are overridden by
the per-call layer when present, and the customValues dictionaries are
shallow-merged key-by-key with per-call entries overriding same-named
keys; auth-client.ts itself is not in the source snapshot. -/
def mergeLoginOptions (base callOpts : LoginOptions) : LoginOptions :=
  { identityProvider := overrideOpt base.identityProvider callOpts.identityProvider
    maxTimeToLive := overrideOpt base.maxTimeToLive callOpts.maxTimeToLive
    derivationOrigin := overrideOpt base.derivationOrigin callOpts.derivationOrigin
    windowOpenerFeatures := overrideOpt base.windowOpenerFeatures callOpts.windowOpenerFeatures
    customValues := spreadMerge base.customValues callOpts.customValues }

/-- Outbound authorize-client request payload: the session public key plus
the merged option fields, with the custom values spread into the message. -/
structure AuthRequest where
  sessionPublicKey : List Nat
  maxTimeToLive : Option Nat
  derivationOrigin : Option String
  customValues : List (String × JsonVal)
deriving DecidableEq

/-- Modelled from the spec: construction of the authorize-client request
payload from the session key and the merged login options. -/
def buildAuthRequest (sessionPublicKey : List Nat) (opts : LoginOptions) : AuthRequest :=
  { sessionPublicKey := sessionPublicKey
    maxTimeToLive := opts.maxTimeToLive
    derivationOrigin := opts.derivationOrigin
    customValues := opts.customValues }

/-! Provider wire messages and the handshake state machine. -/

/-- Signed delegation record as carried by a success message. -/
structure DelegationRecord where
  pubkey : List Nat
  expiration : Nat
  signature : List Nat
deriving DecidableEq

/-- Payload of an authorize-client-success message; both fields are
required by the protocol but may be missing on the wire, hence Option. -/
structure SuccessPayload where
  delegations : Option (List DelegationRecord)
  userPublicKey : Option (List Nat)
deriving DecidableEq

/-- Discriminated data of an inbound provider message: ready-notification,
success, failure, or an unrecognized shape. -/
inductive IdpData
  | ready
  | success (payload : SuccessPayload)
  | failure (text : String)
  | malformed
deriving DecidableEq

/-- Inbound browser message event: the browser-supplied sender origin plus
the message data. -/
structure IdpEvent where
  origin : String
  data : IdpData
deriving DecidableEq

/-- Sentinel reason used when the user closes the provider window before
the handshake resolves. -/
def ERROR_USER_INTERRUPT : String := "UserInterrupt"

/-- Resolution of one login attempt: success with the received delegation
records and provider public key, a provider-reported failure with its
reason text, or user interruption. -/
inductive Outcome
  | success (delegations : List DelegationRecord) (userPublicKey : List Nat)
  | failure (text : String)
  | interrupted
deriving DecidableEq

/-- States of the authorization orchestrator state machine. -/
inductive HandshakeState
  | idle
  | awaitingReady
  | awaitingResult
  | resolved (outcome : Outcome)
deriving DecidableEq

/-- A login attempt is in flight in the two awaiting states. -/
def HandshakeState.inFlight : HandshakeState → Bool
  | .awaitingReady => true
  | .awaitingResult => true
  | _ => false

/-- Per-login configuration of the handshake: the expected provider origin
and the fully built authorize-client request. -/
structure HandshakeConfig where
  expectedOrigin : String
  request : AuthRequest
deriving DecidableEq

/-- Message posted by this client to the provider window. -/
inductive OutboundMessage
  | authorizeClient (request : AuthRequest)
deriving DecidableEq

/-- Observable effects of one handshake transition: posting a message to
the provider window, closing it, or invoking a caller callback. -/
inductive Action
  | post (message : OutboundMessage)
  | closeWindow
  | onSuccessCall
  | onErrorCall (text : String)
deriving DecidableEq

/-- Events driving the handshake: an inbound message event, or detection
(by polling) that the provider window was closed. -/
inductive HandshakeEvent
  | message (event : IdpEvent)
  | windowClosed
deriving DecidableEq

/-- Validation of a success payload: both the delegation records and the
provider public key must be present. -/
def validSuccess (p : SuccessPayload) : Option (List DelegationRecord × List Nat) :=
  match p.delegations, p.userPublicKey with
  | some ds, some pk => some (ds, pk)
  | _, _ => none

/-- Generic reason reported when a success message is malformed. -/
def invalidSuccessText : String := "Invalid authorization response"

/-- Modelled from the spec: one transition of the authorization
orchestrator. A ready message is answered with the authorize-client
request only from the awaiting-ready state and only when its origin
exactly equals the expected provider origin; otherwise it is silently
dropped. A success message with both required fields resolves the login
and closes the window; a success message missing a required field is
downgraded to a failure outcome; a failure message surfaces the provider
text verbatim; window closure before resolution resolves as interrupted.
Resolved states absorb every further event. auth-client.ts itself is not
in the source snapshot. -/
def handshakeStep (cfg : HandshakeConfig) (s : HandshakeState) (ev : HandshakeEvent) :
    HandshakeState × List Action :=
  match s with
  | .resolved o => (.resolved o, [])
  | .idle => (.idle, [])
  | .awaitingReady =>
    match ev with
    | .windowClosed =>
      (.resolved .interrupted, [Action.onErrorCall ERROR_USER_INTERRUPT])
    | .message e =>
      match e.data with
      | .ready =>
        if e.origin = cfg.expectedOrigin then
          (.awaitingResult, [Action.post (OutboundMessage.authorizeClient cfg.request)])
        else
          (.awaitingReady, [])
      | _ => (.awaitingReady, [])
  | .awaitingResult =>
    match ev with
    | .windowClosed =>
      (.resolved .interrupted, [Action.onErrorCall ERROR_USER_INTERRUPT])
    | .message e =>
      match e.data with
      | .success p =>
        match validSuccess p with
        | some (ds, pk) =>
          (.resolved (.success ds pk), [Action.closeWindow, Action.onSuccessCall])
        | none =>
          (.resolved (.failure invalidSuccessText),
            [Action.closeWindow, Action.onErrorCall invalidSuccessText])
      | .failure t =>
        (.resolved (.failure t), [Action.closeWindow, Action.onErrorCall t])
      | _ => (.awaitingResult, [])

/-- Runs the handshake over a list of events, accumulating the emitted
actions in order. -/
def runHandshake (cfg : HandshakeConfig) (s : HandshakeState) :
    List HandshakeEvent → HandshakeState × List Action
  | [] => (s, [])
  | ev :: rest =>
    let r := handshakeStep cfg s ev
    let r2 := runHandshake cfg r.1 rest
    (r2.1, r.2 ++ r2.2)

/-! Key storage and the overwrite-on-login discipline. -/

/-- Persistent store over the two well-known keys: one slot for the key
material and one for the delegation chain. -/
structure StorageState where
  keySlot : Option String
  delegationSlot : Option String
deriving DecidableEq

/-- In-memory client key state after creation: the session key and whether
it was freshly generated in this session. -/
structure ClientState where
  memKey : String
  keyFresh : Bool
deriving DecidableEq

/-- Modelled from the spec: client creation loads the stored key if one
exists, otherwise generates a fresh key and persists it. -/
def createClient (storage : StorageState) (generated : String) : ClientState × StorageState :=
  match storage.keySlot with
  | some k => (⟨k, false⟩, storage)
  | none => (⟨generated, true⟩, { storage with keySlot := some generated })

/-- Result of a successful login attempt: the session key to which the
received delegation chain is bound. -/
structure LoginResult where
  delegationSessionKey : String
deriving DecidableEq

/-- Modelled from the spec: immediately before sending the authorization
request, a key freshly generated this session is written to storage a
second time. -/
def loginPersistKey (client : ClientState) (storage : StorageState) : StorageState :=
  if client.keyFresh then { storage with keySlot := some client.memKey } else storage

/-- Modelled from the spec: the request-send step of login — the fresh key
is re-persisted and the delegation is built on the in-memory session key. -/
def loginSend (client : ClientState) (storage : StorageState) : StorageState × LoginResult :=
  (loginPersistKey client storage, ⟨client.memKey⟩)

/-! Idle detection: manager, callbacks, and scroll debouncing. -/

/-- Creation options of the idle machinery, as recognized by the client:
an idle callback, the timeout, the flag disabling idle detection entirely,
the flag disabling only the default terminal callback, scroll capture, and
the scroll debounce interval. Callbacks are identified by numbers. -/
structure IdleManagerOptions where
  onIdle : Option Nat
  idleTimeout : Option Nat
  disableIdle : Bool
  disableDefaultIdleCallback : Bool
  captureScroll : Bool
  scrollDebounce : Option Nat
deriving DecidableEq

/-- A terminal callback: either the documented default (clear persisted
session state and reload the page) or a caller-supplied one. -/
inductive IdleCallback
  | defaultCallback
  | custom (id : Nat)
deriving DecidableEq

/-- State of the idle manager: the callback list in invocation order, a
flag recording that the list is still the default placeholder, and the
configured durations. -/
structure IdleManager where
  callbacks : List IdleCallback
  usingDefault : Bool
  idleTimeout : Nat
  captureScroll : Bool
  scrollDebounce : Nat
deriving DecidableEq

/-- Default idle timeout: ten minutes in milliseconds. -/
def DEFAULT_IDLE_TIMEOUT : Nat := 10 * 60 * 1000

/-- Default scroll debounce interval in milliseconds. -/
def DEFAULT_SCROLL_DEBOUNCE : Nat := 100

/-- Modelled from the spec and the repository's idle-manager tests
(src/unnamed/part_001): creation installs the caller's idle callback when
one is passed, otherwise the default terminal callback unless it is
disabled; idle-manager.ts itself is not in the source snapshot. -/
def IdleManager.create (options : IdleManagerOptions) : IdleManager :=
  { callbacks :=
      match options.onIdle with
      | some cb => [IdleCallback.custom cb]
      | none =>
        if options.disableDefaultIdleCallback then [] else [IdleCallback.defaultCallback]
    usingDefault := options.onIdle.isNone && !options.disableDefaultIdleCallback
    idleTimeout := options.idleTimeout.getD DEFAULT_IDLE_TIMEOUT
    captureScroll := options.captureScroll
    scrollDebounce := options.scrollDebounce.getD DEFAULT_SCROLL_DEBOUNCE }

/-- Modelled from the repository's idle-manager tests
(src/unnamed/part_001): registering a callback replaces the default
terminal callback when it is still the only installed one, and appends
after previously registered callbacks otherwise. -/
def IdleManager.registerCallback (manager : IdleManager) (cb : Nat) : IdleManager :=
  if manager.usingDefault then
    { manager with callbacks := [IdleCallback.custom cb], usingDefault := false }
  else
    { manager with callbacks := manager.callbacks ++ [IdleCallback.custom cb] }

/-- Registers a list of callbacks one after the other, in order. -/
def IdleManager.registerAll (manager : IdleManager) : List Nat → IdleManager
  | [] => manager
  | cb :: rest => IdleManager.registerAll (manager.registerCallback cb) rest

/-- The single timer-fire event invokes all installed callbacks
synchronously, in list order; the returned list is the invocation order. -/
def IdleManager.fire (manager : IdleManager) : List IdleCallback :=
  manager.callbacks

/-- Modelled from the spec: the client instantiates the idle manager only
when idle detection is not disabled and the client is authenticated. -/
def createIdleManager (authenticated : Bool) (options : IdleManagerOptions) :
    Option IdleManager :=
  if options.disableIdle then none
  else if authenticated then some (IdleManager.create options) else none

/-- Callbacks fired after a silence interval: none without a manager, and
the manager's callback list once the interval reaches the idle timeout. -/
def idleFired (managerOpt : Option IdleManager) (elapsed : Nat) : List IdleCallback :=
  match managerOpt with
  | none => []
  | some m => if m.idleTimeout ≤ elapsed then m.fire else []

/-- Modelled from the spec: trailing-edge debouncing of a sorted list of
scroll event times. Each event schedules a timer-reset at its time plus
the debounce interval; a following event arriving before that moment
cancels the pending reset. The returned list holds the times at which the
debounced reset actually runs. -/
def debounceFires (wait : Nat) : List Nat → List Nat
  | [] => []
  | [e] => [e + wait]
  | e :: e2 :: rest =>
    if e2 < e + wait then debounceFires wait (e2 :: rest)
    else (e + wait) :: debounceFires wait (e2 :: rest)

/-- Last element of a list of times, with a default for the empty list. -/
def lastEvent (d : Nat) : List Nat → Nat
  | [] => d
  | e :: rest => lastEvent e rest

/-- Sortedness of a list of event times (non-decreasing). -/
def sortedTimes : List Nat → Bool
  | [] => true
  | [_] => true
  | e :: e2 :: rest => decide (e ≤ e2) && sortedTimes (e2 :: rest)

/-- Deadline of the idle timer after a burst of scroll events: each
debounced reset re-arms the timer to its own time plus the idle timeout;
with no reset the deadline stays at the arming time plus the timeout. -/
def idleDeadlineAfterScroll (wait timeout createdAt : Nat) (events : List Nat) : Nat :=
  lastEvent createdAt (debounceFires wait events) + timeout

/-! Identity-provider URL normalization. -/

/-- Fragment identifier appended to the identity-provider URL. -/
def IDENTITY_PROVIDER_ENDPOINT : List Char :=
  ['#', 'a', 'u', 't', 'h', 'o', 'r', 'i', 'z', 'e']

/-- Boolean test that a URL (as a character list) ends with the given
suffix characters. -/
def endsWith (suffixChars url : List Char) : Bool :=
  url.drop (url.length - suffixChars.length) == suffixChars

/-- Modelled from the spec: the final URL the provider window is opened
on — the caller's URL with the fixed fragment appended if and only if the
URL does not already end with that fragment; auth-client.ts itself is not
in the source snapshot. -/
def loginUrl (identityProvider : List Char) : List Char :=
  if endsWith IDENTITY_PROVIDER_ENDPOINT identityProvider then identityProvider
  else identityProvider ++ IDENTITY_PROVIDER_ENDPOINT

/-! Helper lemmas. -/

/-- Lookup distributes over append, preferring the left list. -/
theorem lookupKey_append (k : String) (l₁ l₂ : List (String × JsonVal)) :
    lookupKey k (l₁ ++ l₂) = overrideOpt (lookupKey k l₂) (lookupKey k l₁) := by
  induction l₁ with
  | nil => cases h : lookupKey k l₂ <;> simp [lookupKey, overrideOpt, h]
  | cons p rest ih =>
    by_cases h : p.1 = k
    · simp [lookupKey, h, overrideOpt]
    · simp [lookupKey, h, ih]

/-- Lookup in the override-mapped base list of a spread merge. -/
theorem lookupKey_map_override (k : String) (b c : List (String × JsonVal)) :
    lookupKey k (b.map (fun p =>
        match lookupKey p.1 c with
        | some v => (p.1, v)
        | none => p))
      = match lookupKey k b with
        | some v => overrideOpt (some v) (lookupKey k c)
        | none => none := by
  induction b with
  | nil => simp [lookupKey]
  | cons p rest ih =>
    by_cases h : p.1 = k
    · subst h
      cases hc : lookupKey p.1 c <;> simp [lookupKey, hc, overrideOpt]
    · cases hc : lookupKey p.1 c <;> simp [lookupKey, hc, h, ih]

/-- Lookup in the filtered per-call list of a spread merge: entries whose
key already occurs in the base list are dropped, the rest are kept. -/
theorem lookupKey_filter_new (k : String) (b c : List (String × JsonVal)) :
    lookupKey k (c.filter (fun p => (lookupKey p.1 b).isNone))
      = match lookupKey k b with
        | some _ => none
        | none => lookupKey k c := by
  induction c with
  | nil => cases hb : lookupKey k b <;> simp [lookupKey, hb]
  | cons p rest ih =>
    by_cases h : p.1 = k
    · subst h
      cases hb : lookupKey p.1 b <;> simp [lookupKey, hb, ih]
    · cases hbp : lookupKey p.1 b <;> cases hb : lookupKey k b <;>
        simp [lookupKey, hbp, hb, h, ih]

/-- Characterization of the spread merge: a key maps to the per-call value
when the per-call dictionary has it, otherwise to the base value. -/
theorem lookupKey_spreadMerge (k : String) (b c : List (String × JsonVal)) :
    lookupKey k (spreadMerge b c)
      = overrideOpt (lookupKey k b) (lookupKey k c) := by
  unfold spreadMerge
  rw [lookupKey_append, lookupKey_map_override, lookupKey_filter_new]
  cases hb : lookupKey k b <;> cases hc : lookupKey k c <;> simp [overrideOpt]

/-- A resolved handshake state absorbs every further event without
emitting any action. -/
theorem runHandshake_resolved (cfg : HandshakeConfig) (o : Outcome)
    (evs : List HandshakeEvent) :
    runHandshake cfg (HandshakeState.resolved o) evs = (HandshakeState.resolved o, []) := by
  induction evs with
  | nil => rfl
  | cons ev rest ih => simp [runHandshake, handshakeStep, ih]

/-- In a sorted event list the head is bounded by the last event. -/
theorem sorted_head_le_lastEvent (rest : List Nat) :
    ∀ e : Nat, sortedTimes (e :: rest) = true → e ≤ lastEvent e rest := by
  induction rest with
  | nil => intro e _; exact Nat.le_refl e
  | cons e2 rest' ih =>
    intro e h
    simp only [sortedTimes, Bool.and_eq_true, decide_eq_true_eq] at h
    exact Nat.le_trans h.1 (ih e2 h.2)

/-- A sorted burst of events whose span is below the debounce interval
collapses to exactly one debounced reset, at the trailing boundary of the
window opened by the last event. -/
theorem debounceFires_single (wait : Nat) (rest : List Nat) :
    ∀ e : Nat, sortedTimes (e :: rest) = true → lastEvent e rest < e + wait →
      debounceFires wait (e :: rest) = [lastEvent e rest + wait] := by
  induction rest with
  | nil => intro e _ _; rfl
  | cons e2 rest' ih =>
    intro e hs hw
    simp only [sortedTimes, Bool.and_eq_true, decide_eq_true_eq] at hs
    have hlast : lastEvent e (e2 :: rest') = lastEvent e2 rest' := rfl
    have h2 : e2 ≤ lastEvent e2 rest' := sorted_head_le_lastEvent rest' e2 hs.2
    have hcancel : e2 < e + wait := Nat.lt_of_le_of_lt h2 (hlast ▸ hw)
    have hw2 : lastEvent e2 rest' < e2 + wait := by
      have := hlast ▸ hw
      omega
    simp only [debounceFires, if_pos hcancel]
    rw [hlast]
    exact ih e2 hs.2 hw2

/-- Registering callbacks on a manager no longer holding the default
placeholder appends them, preserving the flag and the timeout. -/
theorem registerAll_noDefault (cbs : List Nat) :
    ∀ m : IdleManager, m.usingDefault = false →
      (m.registerAll cbs).callbacks = m.callbacks ++ cbs.map IdleCallback.custom
      ∧ (m.registerAll cbs).usingDefault = false
      ∧ (m.registerAll cbs).idleTimeout = m.idleTimeout := by
  induction cbs with
  | nil => intro m h; exact ⟨by simp [IdleManager.registerAll], h, rfl⟩
  | cons cb rest ih =>
    intro m h
    have hstep : m.registerCallback cb =
        { m with callbacks := m.callbacks ++ [IdleCallback.custom cb] } := by
      simp [IdleManager.registerCallback, h]
    have := ih (m.registerCallback cb) (by rw [hstep]; exact h)
    refine ⟨?_, this.2.1, ?_⟩
    · rw [IdleManager.registerAll, this.1, hstep]
      simp
    · rw [IdleManager.registerAll, this.2.2, hstep]

/-- The URL-suffix test accepts any list extended by the tested suffix. -/
theorem endsWith_append (u s : List Char) : endsWith s (u ++ s) = true := by
  unfold endsWith
  rw [List.length_append, Nat.add_sub_cancel, List.drop_left]
  exact beq_self_eq_true s

/-! Claim theorems. -/

/-- C1: an inbound ready-notification whose sender origin differs from the
expected identity-provider origin never produces an outbound message to
the provider window: in every handshake state of every login attempt the
message is silently dropped — the state is unchanged and no action at all
is emitted. -/
theorem ready_bad_origin_is_dropped (cfg : HandshakeConfig) (s : HandshakeState)
    (origin : String) (h : origin ≠ cfg.expectedOrigin) :
    handshakeStep cfg s (HandshakeEvent.message ⟨origin, IdpData.ready⟩) = (s, []) := by
  cases s <;> simp [handshakeStep, h]

/-- C1 witness: a ready message from the concrete origin "bad origin" in
the awaiting-ready state of a login expecting the default provider origin
is dropped without any outbound response. -/
theorem ready_bad_origin_is_dropped_witness :
    handshakeStep ⟨"https://identity.internetcomputer.org", ⟨[], none, none, []⟩⟩
        HandshakeState.awaitingReady
        (HandshakeEvent.message ⟨"bad origin", IdpData.ready⟩)
      = (HandshakeState.awaitingReady, []) :=
  ready_bad_origin_is_dropped _ _ _ (by decide)

/-- C2: for a login in which the local key was freshly generated this
session, the key re-persisted immediately before request-send equals the
key the delegation is built on, so even after an interloping overwrite by
a second context the stored value after login is the session key and not
the interloper's value. -/
theorem login_overwrites_stored_key (storage₀ : StorageState)
    (generated interloper : String) (client : ClientState)
    (storage₁ storage₂ storage₃ : StorageState) (result : LoginResult)
    (hcreate : createClient storage₀ generated = (client, storage₁))
    (hfresh : client.keyFresh = true)
    (hrace : storage₂ = { storage₁ with keySlot := some interloper })
    (hsend : loginSend client storage₂ = (storage₃, result)) :
    storage₃.keySlot = some result.delegationSessionKey
    ∧ result.delegationSessionKey = client.memKey
    ∧ (interloper ≠ client.memKey → storage₃.keySlot ≠ some interloper) := by
  unfold loginSend at hsend
  injection hsend with h3 hres
  subst h3
  subst hres
  have hpersist : loginPersistKey client storage₂ = { storage₂ with keySlot := some client.memKey } := by
    unfold loginPersistKey
    rw [if_pos hfresh]
  rw [hpersist]
  refine ⟨rfl, rfl, ?_⟩
  intro hne heq
  exact hne (Option.some.inj heq).symm

/-- C2 witness: the concrete race of the changelog test — a fresh
"session-key" is generated and stored, another tab overwrites the slot
with "overwritten-key-from-another-tab", and after the login-time
re-write the stored value is the session key again. -/
theorem login_overwrites_stored_key_witness :
    (some "session-key" : Option String) = some "session-key"
    ∧ "session-key" = "session-key"
    ∧ ("overwritten-key-from-another-tab" ≠ "session-key" →
        (some "session-key" : Option String) ≠ some "overwritten-key-from-another-tab") := by
  have h := login_overwrites_stored_key ⟨none, none⟩ "session-key"
      "overwritten-key-from-another-tab" ⟨"session-key", true⟩
      ⟨some "session-key", none⟩
      ⟨some "overwritten-key-from-another-tab", none⟩
      ⟨some "session-key", none⟩ ⟨"session-key"⟩
      rfl rfl rfl rfl
  exact h

/-- C3: a ready message from the expected provider origin produces exactly
one outbound authorize-client request, whose payload is built from the
merge of the client-level default login options with the per-call options:
every scalar field takes the per-call value when present and the default
otherwise, and the customValues dictionaries are merged key-by-key with
per-call entries overriding same-named keys. -/
theorem ready_good_origin_sends_merged_request
    (expectedOrigin : String) (sessionKey : List Nat) (base callOpts : LoginOptions) :
    handshakeStep
        ⟨expectedOrigin, buildAuthRequest sessionKey (mergeLoginOptions base callOpts)⟩
        HandshakeState.awaitingReady
        (HandshakeEvent.message ⟨expectedOrigin, IdpData.ready⟩)
      = (HandshakeState.awaitingResult,
          [Action.post (OutboundMessage.authorizeClient
            (buildAuthRequest sessionKey (mergeLoginOptions base callOpts)))])
    ∧ (∀ v, callOpts.identityProvider = some v →
        (mergeLoginOptions base callOpts).identityProvider = some v)
    ∧ (callOpts.identityProvider = none →
        (mergeLoginOptions base callOpts).identityProvider = base.identityProvider)
    ∧ (∀ v, callOpts.maxTimeToLive = some v →
        (mergeLoginOptions base callOpts).maxTimeToLive = some v)
    ∧ (callOpts.maxTimeToLive = none →
        (mergeLoginOptions base callOpts).maxTimeToLive = base.maxTimeToLive)
    ∧ (∀ v, callOpts.derivationOrigin = some v →
        (mergeLoginOptions base callOpts).derivationOrigin = some v)
    ∧ (callOpts.derivationOrigin = none →
        (mergeLoginOptions base callOpts).derivationOrigin = base.derivationOrigin)
    ∧ (∀ v, callOpts.windowOpenerFeatures = some v →
        (mergeLoginOptions base callOpts).windowOpenerFeatures = some v)
    ∧ (callOpts.windowOpenerFeatures = none →
        (mergeLoginOptions base callOpts).windowOpenerFeatures = base.windowOpenerFeatures)
    ∧ (∀ k, lookupKey k (mergeLoginOptions base callOpts).customValues
        = overrideOpt (lookupKey k base.customValues) (lookupKey k callOpts.customValues)) := by
  refine ⟨by simp [handshakeStep], ?_, ?_, ?_, ?_, ?_, ?_, ?_, ?_,
    fun k => lookupKey_spreadMerge k base.customValues callOpts.customValues⟩
  · intro v hv; simp [mergeLoginOptions, overrideOpt, hv]
  · intro hv; simp [mergeLoginOptions, overrideOpt, hv]
  · intro v hv; simp [mergeLoginOptions, overrideOpt, hv]
  · intro hv; simp [mergeLoginOptions, overrideOpt, hv]
  · intro v hv; simp [mergeLoginOptions, overrideOpt, hv]
  · intro hv; simp [mergeLoginOptions, overrideOpt, hv]
  · intro v hv; simp [mergeLoginOptions, overrideOpt, hv]
  · intro hv; simp [mergeLoginOptions, overrideOpt, hv]

/-- C3 witness: the concrete merge of the changelog test — the per-call
identity provider replaces the default one, the default derivation origin
is kept, and the per-call value of the custom key "test" overrides the
default object value. -/
theorem ready_good_origin_sends_merged_request_witness :
    (mergeLoginOptions
        ⟨some "http://my-local-website.localhost:8080", none,
          some "http://another-local-website.localhost:8080", none,
          [("test", JsonVal.obj [("inner", "val")])]⟩
        ⟨some "http://replaced.localhost:8080", none, none, none,
          [("test", JsonVal.str "another-val")]⟩).identityProvider
      = some "http://replaced.localhost:8080"
    ∧ (mergeLoginOptions
        ⟨some "http://my-local-website.localhost:8080", none,
          some "http://another-local-website.localhost:8080", none,
          [("test", JsonVal.obj [("inner", "val")])]⟩
        ⟨some "http://replaced.localhost:8080", none, none, none,
          [("test", JsonVal.str "another-val")]⟩).derivationOrigin
      = some "http://another-local-website.localhost:8080"
    ∧ lookupKey "test" (mergeLoginOptions
        ⟨some "http://my-local-website.localhost:8080", none,
          some "http://another-local-website.localhost:8080", none,
          [("test", JsonVal.obj [("inner", "val")])]⟩
        ⟨some "http://replaced.localhost:8080", none, none, none,
          [("test", JsonVal.str "another-val")]⟩).customValues
      = some (JsonVal.str "another-val") := by
  have h := ready_good_origin_sends_merged_request "http://replaced.localhost:8080" [1, 2, 3]
      ⟨some "http://my-local-website.localhost:8080", none,
        some "http://another-local-website.localhost:8080", none,
        [("test", JsonVal.obj [("inner", "val")])]⟩
      ⟨some "http://replaced.localhost:8080", none, none, none,
        [("test", JsonVal.str "another-val")]⟩
  refine ⟨h.2.1 _ rfl, h.2.2.2.2.2.2.1 rfl, ?_⟩
  have hl := h.2.2.2.2.2.2.2.2.2 "test"
  rw [hl]
  decide

/-- C6: closing the provider window while a login is in flight resolves it
with the fixed user-interrupt sentinel, exactly once — the resolved state
absorbs every further event without action — and the interrupted outcome
is distinct from every provider-reported failure outcome. -/
theorem window_close_resolves_interrupted (cfg : HandshakeConfig) (s : HandshakeState)
    (h : s.inFlight = true) :
    handshakeStep cfg s HandshakeEvent.windowClosed
      = (HandshakeState.resolved Outcome.interrupted,
          [Action.onErrorCall ERROR_USER_INTERRUPT])
    ∧ (∀ evs, runHandshake cfg (HandshakeState.resolved Outcome.interrupted) evs
        = (HandshakeState.resolved Outcome.interrupted, []))
    ∧ (∀ t, (Outcome.interrupted : Outcome) ≠ Outcome.failure t) := by
  refine ⟨?_, fun evs => runHandshake_resolved cfg Outcome.interrupted evs, fun t => by simp⟩
  cases s with
  | awaitingReady => rfl
  | awaitingResult => rfl
  | idle => simp [HandshakeState.inFlight] at h
  | resolved o => simp [HandshakeState.inFlight] at h

/-- C6 witness: closing the window in the awaiting-ready state of a
concrete login resolves as interrupted, further events (a late ready
message, another closure poll) change nothing, and the interrupted outcome
differs from the concrete provider failure of the changelog test. -/
theorem window_close_resolves_interrupted_witness :
    handshakeStep ⟨"https://identity.internetcomputer.org", ⟨[], none, none, []⟩⟩
        HandshakeState.awaitingReady HandshakeEvent.windowClosed
      = (HandshakeState.resolved Outcome.interrupted,
          [Action.onErrorCall ERROR_USER_INTERRUPT])
    ∧ runHandshake ⟨"https://identity.internetcomputer.org", ⟨[], none, none, []⟩⟩
        (HandshakeState.resolved Outcome.interrupted)
        [HandshakeEvent.windowClosed,
          HandshakeEvent.message ⟨"https://identity.internetcomputer.org", IdpData.ready⟩]
      = (HandshakeState.resolved Outcome.interrupted, [])
    ∧ (Outcome.interrupted : Outcome) ≠ Outcome.failure "mock error message" := by
  have h := window_close_resolves_interrupted
      ⟨"https://identity.internetcomputer.org", ⟨[], none, none, []⟩⟩
      HandshakeState.awaitingReady rfl
  exact ⟨h.1, h.2.1 _, h.2.2 _⟩

/-- C7: a success message missing a required field — no delegation records
or no provider public key — resolves the login through the caller's error
path with the provider window closed: the transition is total, yielding a
failure resolution with a close-window action and an error callback, never
a raw exception. -/
theorem invalid_success_resolves_error_path (cfg : HandshakeConfig) (origin : String)
    (p : SuccessPayload) (h : p.delegations = none ∨ p.userPublicKey = none) :
    handshakeStep cfg HandshakeState.awaitingResult
        (HandshakeEvent.message ⟨origin, IdpData.success p⟩)
      = (HandshakeState.resolved (Outcome.failure invalidSuccessText),
          [Action.closeWindow, Action.onErrorCall invalidSuccessText]) := by
  have hv : validSuccess p = none := by
    obtain ⟨ds, pk⟩ := p
    rcases h with h | h
    · have hds : ds = none := h
      subst hds; cases pk <;> rfl
    · have hpk : pk = none := h
      subst hpk; cases ds <;> rfl
  simp [handshakeStep, hv]

/-- C7 witness: the empty success message of the changelog test, carrying
neither delegations nor a public key, resolves through the error path with
the window closed. -/
theorem invalid_success_resolves_error_path_witness :
    handshakeStep ⟨"https://identity.internetcomputer.org", ⟨[], none, none, []⟩⟩
        HandshakeState.awaitingResult
        (HandshakeEvent.message
          ⟨"https://identity.internetcomputer.org", IdpData.success ⟨none, none⟩⟩)
      = (HandshakeState.resolved (Outcome.failure invalidSuccessText),
          [Action.closeWindow, Action.onErrorCall invalidSuccessText]) :=
  invalid_success_resolves_error_path _ _ _ (Or.inl rfl)

/-- C8: with idle detection disabled, no idle manager is instantiated and
no terminal idle callback ever fires, for every elapsed silence interval. -/
theorem disable_idle_no_callbacks (authenticated : Bool) (options : IdleManagerOptions)
    (h : options.disableIdle = true) :
    createIdleManager authenticated options = none
    ∧ ∀ elapsed : Nat, idleFired (createIdleManager authenticated options) elapsed = [] := by
  have hnone : createIdleManager authenticated options = none := by
    simp [createIdleManager, h]
  exact ⟨hnone, fun elapsed => by rw [hnone]; rfl⟩

/-- C8 witness: the changelog test's configuration — idle timeout 1000,
idle detection disabled — yields no idle manager and no callback after a
thirty-minute silence. -/
theorem disable_idle_no_callbacks_witness :
    createIdleManager true ⟨none, some 1000, true, false, false, none⟩ = none
    ∧ idleFired (createIdleManager true ⟨none, some 1000, true, false, false, none⟩)
        (30 * 60 * 1000) = [] := by
  have h := disable_idle_no_callbacks true ⟨none, some 1000, true, false, false, none⟩ rfl
  exact ⟨h.1, h.2 _⟩

/-- C4 counterexample: an IdleManager created with all options at their
defaults (in particular without the default-callback-disable option),
given one registered callback, fires only that callback when the idle
timeout elapses — the default storage-clear-and-reload callback does not
run in addition, contrary to the claim. -/
theorem register_callback_replaces_default_cex :
    idleFired
        (some ((IdleManager.create
          ⟨none, none, false, false, false, none⟩).registerCallback 0))
        (10 * 60 * 1000)
      = [IdleCallback.custom 0]
    ∧ IdleCallback.defaultCallback ∉
        idleFired
          (some ((IdleManager.create
            ⟨none, none, false, false, false, none⟩).registerCallback 0))
          (10 * 60 * 1000) := by
  decide

/-- C4 amended: for an IdleManager created without a creation callback —
regardless of the default-callback-disable option — registering one or
more callbacks replaces the default terminal callback: when the idle
timeout elapses, exactly the registered callbacks run, synchronously in
registration order from the single timer fire, and the default
storage-clear-and-reload callback does not run. -/
theorem registered_callbacks_replace_default (options : IdleManagerOptions)
    (cbs : List Nat) (elapsed : Nat)
    (hIdle : options.onIdle = none)
    (hcbs : cbs ≠ [])
    (helapsed : ((IdleManager.create options).registerAll cbs).idleTimeout ≤ elapsed) :
    idleFired (some ((IdleManager.create options).registerAll cbs)) elapsed
      = cbs.map IdleCallback.custom
    ∧ IdleCallback.defaultCallback ∉
        idleFired (some ((IdleManager.create options).registerAll cbs)) elapsed := by
  cases cbs with
  | nil => exact absurd rfl hcbs
  | cons c rest =>
    have hm1 : ((IdleManager.create options).registerCallback c).callbacks
          = [IdleCallback.custom c]
        ∧ ((IdleManager.create options).registerCallback c).usingDefault = false := by
      cases hd : options.disableDefaultIdleCallback <;>
        simp [IdleManager.create, IdleManager.registerCallback, hIdle, hd]
    have hall := registerAll_noDefault rest
      ((IdleManager.create options).registerCallback c) hm1.2
    have hcall : (((IdleManager.create options).registerCallback c).registerAll rest).callbacks
        = (c :: rest).map IdleCallback.custom := by
      rw [hall.1, hm1.1]
      simp
    have helapsed2 :
        (((IdleManager.create options).registerCallback c).registerAll rest).idleTimeout
          ≤ elapsed := helapsed
    have hfired :
        idleFired (some ((IdleManager.create options).registerAll (c :: rest))) elapsed
          = (c :: rest).map IdleCallback.custom := by
      show idleFired
        (some (((IdleManager.create options).registerCallback c).registerAll rest)) elapsed = _
      simp only [idleFired, IdleManager.fire]
      rw [if_pos helapsed2]
      exact hcall
    refine ⟨hfired, ?_⟩
    rw [hfired]
    simp

/-- C4 amended witness: two callbacks registered on a default-configured
manager fire in registration order after the default ten-minute timeout,
and the default callback is not among them. -/
theorem registered_callbacks_replace_default_witness :
    idleFired
        (some ((IdleManager.create
          ⟨none, none, false, false, false, none⟩).registerAll [0, 1]))
        (10 * 60 * 1000)
      = [IdleCallback.custom 0, IdleCallback.custom 1]
    ∧ IdleCallback.defaultCallback ∉
        idleFired
          (some ((IdleManager.create
            ⟨none, none, false, false, false, none⟩).registerAll [0, 1]))
          (10 * 60 * 1000) := by
  have h := registered_callbacks_replace_default
      ⟨none, none, false, false, false, none⟩ [0, 1] (10 * 60 * 1000)
      rfl (by decide) (by decide)
  exact h

/-- C5: a sorted burst of scroll events all inside one debounce window
resets the idle timer exactly once, and the resulting deadline is the
trailing boundary of the window opened by the last event plus the idle
timeout — not the last event's time plus the timeout. -/
theorem scroll_debounce_coalesces_resets (wait timeout createdAt e : Nat)
    (rest : List Nat)
    (hwait : 0 < wait)
    (hsorted : sortedTimes (e :: rest) = true)
    (hwindow : lastEvent e rest < e + wait) :
    debounceFires wait (e :: rest) = [lastEvent e rest + wait]
    ∧ idleDeadlineAfterScroll wait timeout createdAt (e :: rest)
        = (lastEvent e rest + wait) + timeout
    ∧ idleDeadlineAfterScroll wait timeout createdAt (e :: rest)
        ≠ lastEvent e rest + timeout := by
  have h1 := debounceFires_single wait rest e hsorted hwindow
  have h2 : idleDeadlineAfterScroll wait timeout createdAt (e :: rest)
      = (lastEvent e rest + wait) + timeout := by
    unfold idleDeadlineAfterScroll
    rw [h1]
    rfl
  refine ⟨h1, h2, ?_⟩
  rw [h2]
  omega

/-- C5 witness: three scroll events at 0, 30 and 60 milliseconds under a
100-millisecond debounce and the default ten-minute timeout produce one
reset at 160 and the deadline 600160, not 600060. -/
theorem scroll_debounce_coalesces_resets_witness :
    debounceFires 100 [0, 30, 60] = [160]
    ∧ idleDeadlineAfterScroll 100 600000 0 [0, 30, 60] = 600160
    ∧ idleDeadlineAfterScroll 100 600000 0 [0, 30, 60] ≠ 600060 := by
  have h := scroll_debounce_coalesces_resets 100 600000 0 0 [30, 60]
      (by decide) (by decide) (by decide)
  exact h

/-- C9: the provider window is opened on the caller's URL with the fixed
fragment appended exactly when the URL does not already end with it, and
the normalization is idempotent: a URL already ending in the fragment
opens the same final URL as the same URL without it. -/
theorem login_url_fragment_normalization :
    (∀ u : List Char, endsWith IDENTITY_PROVIDER_ENDPOINT u = false →
        loginUrl u = u ++ IDENTITY_PROVIDER_ENDPOINT)
    ∧ (∀ u : List Char, endsWith IDENTITY_PROVIDER_ENDPOINT u = true → loginUrl u = u)
    ∧ (∀ u : List Char, endsWith IDENTITY_PROVIDER_ENDPOINT u = false →
        loginUrl (u ++ IDENTITY_PROVIDER_ENDPOINT) = loginUrl u)
    ∧ (∀ u : List Char, loginUrl (loginUrl u) = loginUrl u) := by
  have happ : ∀ u : List Char,
      loginUrl (u ++ IDENTITY_PROVIDER_ENDPOINT) = u ++ IDENTITY_PROVIDER_ENDPOINT := by
    intro u
    unfold loginUrl
    rw [if_pos (endsWith_append u IDENTITY_PROVIDER_ENDPOINT)]
  have hfalse : ∀ u : List Char, endsWith IDENTITY_PROVIDER_ENDPOINT u = false →
      loginUrl u = u ++ IDENTITY_PROVIDER_ENDPOINT := by
    intro u h
    unfold loginUrl
    rw [h]
    simp
  have htrue : ∀ u : List Char, endsWith IDENTITY_PROVIDER_ENDPOINT u = true →
      loginUrl u = u := by
    intro u h
    unfold loginUrl
    rw [h]
    simp
  refine ⟨hfalse, htrue, ?_, ?_⟩
  · intro u h
    rw [happ u, hfalse u h]
  · intro u
    cases h : endsWith IDENTITY_PROVIDER_ENDPOINT u
    · rw [hfalse u h]
      exact happ u
    · rw [htrue u h]
      exact htrue u h

/-- C9 witness: a one-character URL without the fragment gets the fragment
appended, and the same URL with the fragment already present opens the
same final URL. -/
theorem login_url_fragment_normalization_witness :
    loginUrl ['x'] = ['x'] ++ IDENTITY_PROVIDER_ENDPOINT
    ∧ loginUrl (['x'] ++ IDENTITY_PROVIDER_ENDPOINT) = loginUrl ['x'] := by
  have h := login_url_fragment_normalization
  exact ⟨h.1 ['x'] (by decide), h.2.2.1 ['x'] (by decide)⟩

/-- C10: unwrapResponse throws the SignerError carrying the error field
when one is present, returns the result unchanged when a result and no
error are present, throws the NETWORK_ERROR "Invalid response" SignerError
when neither is present, and returns normally if and only if the response
carries a result and no error. -/
theorem unwrapResponse_spec (T : Type) (r : JsonResponse T) :
    (∀ e, r.error = some e → unwrapResponse r = Except.error ⟨e⟩)
    ∧ (r.error = none → ∀ v, r.result = some v → unwrapResponse r = Except.ok v)
    ∧ (r.error = none → r.result = none →
        unwrapResponse r = Except.error ⟨⟨ErrorCode.NETWORK_ERROR, "Invalid response"⟩⟩)
    ∧ ((∃ v, unwrapResponse r = Except.ok v) ↔ (r.error = none ∧ r.result.isSome = true)) := by
  obtain ⟨er, res⟩ := r
  refine ⟨?_, ?_, ?_, ?_⟩
  · intro e he
    have h1 : er = some e := he
    subst h1
    rfl
  · intro he v hv
    have h1 : er = none := he
    have h2 : res = some v := hv
    subst h1
    subst h2
    rfl
  · intro he hv
    have h1 : er = none := he
    have h2 : res = none := hv
    subst h1
    subst h2
    rfl
  · cases er <;> cases res <;> simp [unwrapResponse]

/-- C10 witness: a response carrying the result 3 and no error unwraps to
that result. -/
theorem unwrapResponse_spec_witness :
    unwrapResponse (⟨none, some 3⟩ : JsonResponse Nat) = Except.ok 3 :=
  (unwrapResponse_spec Nat ⟨none, some 3⟩).2.1 rfl 3 rfl

end ICPAuth
